import Mathlib

/-!
Verification of the order-processing pipeline of `tg_order_bot`.

Python strings are shallowly embedded as lists of Unicode code points
(`List Nat`).  Each definition mirrors one Python function of the
repository (file and function named in its doc comment); theorems at the
end settle the specification claims.
-/

set_option maxRecDepth 4096

namespace TgOrderBot

/-- Encode a Lean string literal as a list of code points (used for the
concrete Python string literals appearing in the source). -/
def encodeStr (s : String) : List Nat :=
  s.data.map Char.toNat

/-- Python `str.isspace` / the whitespace class used by `str.split()`:
space, tab, newline, carriage return, vertical tab, form feed
(restricted to the ASCII range, which is all the code relies on). -/
def pyIsSpace (n : Nat) : Bool :=
  decide (n = 32 ∨ n = 9 ∨ n = 10 ∨ n = 13 ∨ n = 11 ∨ n = 12)

/-- Python `str.isdigit` restricted to ASCII digits `0`-`9`. -/
def pyIsDigit (n : Nat) : Bool :=
  decide (48 ≤ n ∧ n ≤ 57)

/-- ASCII uppercase letter `A`-`Z`. -/
def isUpperAlpha (n : Nat) : Bool :=
  decide (65 ≤ n ∧ n ≤ 90)

/-- Python `string.punctuation`, i.e. the 32 ASCII punctuation
characters: exactly the code points 33-47, 58-64, 91-96 and 123-126. -/
def isPunctuation (n : Nat) : Bool :=
  decide ((33 ≤ n ∧ n ≤ 47) ∨ (58 ≤ n ∧ n ≤ 64) ∨
    (91 ≤ n ∧ n ≤ 96) ∨ (123 ≤ n ∧ n ≤ 126))

/-- Python `str.upper` on a single code point (ASCII range; the pipeline
only distinguishes ASCII letters). -/
def pyToUpper (n : Nat) : Nat :=
  if 97 ≤ n ∧ n ≤ 122 then n - 32 else n

/-- Python `str.upper` on a whole string. -/
def pyUpper (l : List Nat) : List Nat :=
  l.map pyToUpper

/-- Helper for `pySplit`: `acc` holds the current in-progress word,
reversed. -/
def pySplitAux : List Nat → List Nat → List (List Nat)
  | [], acc => if acc = [] then [] else [acc.reverse]
  | c :: cs, acc =>
    if pyIsSpace c then
      if acc = [] then pySplitAux cs []
      else acc.reverse :: pySplitAux cs []
    else pySplitAux cs (c :: acc)

/-- Python `str.split()` with no separator: split on runs of whitespace,
dropping empty words. -/
def pySplit (l : List Nat) : List (List Nat) :=
  pySplitAux l []

/-- Python `' '.join(words)`. -/
def pyJoinSp : List (List Nat) → List Nat
  | [] => []
  | [w] => w
  | w :: ws => w ++ 32 :: pyJoinSp ws

/-- Python `value.strip(chars)` for a character predicate: drop matching
characters from both ends. -/
def pyStrip (p : Nat → Bool) (l : List Nat) : List Nat :=
  ((l.dropWhile p).reverse.dropWhile p).reverse

namespace Swift

/-- `src/forwarder/utils/swift.py`, `Swift.clean_text`: the company
designations dropped word-wise. -/
def company_designations : List (List Nat) :=
  [encodeStr "CO", encodeStr "LTD", encodeStr "COLTD"]

/-- `src/forwarder/utils/swift.py`, `Swift.clean_text`:
remove all `string.punctuation` characters, uppercase, split into words,
drop the company designations, and re-join with single spaces. -/
def clean_text (l : List Nat) : List Nat :=
  pyJoinSp ((pySplit (pyUpper (l.filter fun n => !isPunctuation n))).filter
    fun w => decide (w ∉ company_designations))

end Swift

namespace IBANValidator

/-- `IBAN_MANDATORY_COUNTRIES` of `src/forwarder/utils/iban.py`. -/
def IBAN_MANDATORY_COUNTRIES : List (List Nat) :=
  [encodeStr "ALBANIA", encodeStr "ANDORRA", encodeStr "AUSTRIA",
   encodeStr "AZERBAIJAN", encodeStr "BAHRAIN", encodeStr "BELGIUM",
   encodeStr "BOSNIA AND HERZEGOVINA", encodeStr "BULGARIA",
   encodeStr "CROATIA", encodeStr "CYPRUS", encodeStr "CZECH REPUBLIC",
   encodeStr "DENMARK", encodeStr "ESTONIA", encodeStr "FAROE ISLANDS",
   encodeStr "FINLAND", encodeStr "FRANCE", encodeStr "GEORGIA",
   encodeStr "GERMANY", encodeStr "GIBRALTAR", encodeStr "GREECE",
   encodeStr "GREENLAND", encodeStr "HUNGARY", encodeStr "ICELAND",
   encodeStr "IRELAND", encodeStr "ISRAEL", encodeStr "ITALY",
   encodeStr "JORDAN", encodeStr "KAZAKHSTAN", encodeStr "KUWAIT",
   encodeStr "LATVIA", encodeStr "LEBANON", encodeStr "LIECHTENSTEIN",
   encodeStr "LITHUANIA", encodeStr "LUXEMBOURG", encodeStr "MALTA",
   encodeStr "MAURITANIA", encodeStr "MAURITIUS", encodeStr "MONACO",
   encodeStr "MONTENEGRO", encodeStr "NETHERLANDS",
   encodeStr "NORTH MACEDONIA", encodeStr "NORWAY", encodeStr "PAKISTAN",
   encodeStr "PALESTINE", encodeStr "POLAND", encodeStr "PORTUGAL",
   encodeStr "QATAR", encodeStr "ROMANIA", encodeStr "SAINT LUCIA",
   encodeStr "SAN MARINO", encodeStr "SAUDI ARABIA", encodeStr "SERBIA",
   encodeStr "SEYCHELLES", encodeStr "SLOVAKIA", encodeStr "SLOVENIA",
   encodeStr "SPAIN", encodeStr "SWEDEN", encodeStr "SWITZERLAND",
   encodeStr "TIMOR-LESTE", encodeStr "TURKEY", encodeStr "UKRAINE",
   encodeStr "UNITED ARAB EMIRATES", encodeStr "UNITED KINGDOM",
   encodeStr "VATICAN CITY STATE"]

/-- `IBAN_LENGTHS` of `src/forwarder/utils/iban.py`: expected total IBAN
length keyed by two-letter country code. -/
def IBAN_LENGTHS : List (List Nat × Nat) :=
  [(encodeStr "AL", 28), (encodeStr "AD", 24), (encodeStr "AT", 20),
   (encodeStr "AZ", 28), (encodeStr "BH", 22), (encodeStr "BE", 16),
   (encodeStr "BA", 20), (encodeStr "BG", 22), (encodeStr "HR", 21),
   (encodeStr "CY", 28), (encodeStr "CZ", 24), (encodeStr "DK", 18),
   (encodeStr "EE", 20), (encodeStr "FO", 18), (encodeStr "FI", 18),
   (encodeStr "FR", 27), (encodeStr "GE", 22), (encodeStr "DE", 22),
   (encodeStr "GI", 23), (encodeStr "GR", 27), (encodeStr "GL", 18),
   (encodeStr "HU", 28), (encodeStr "IS", 26), (encodeStr "IE", 22),
   (encodeStr "IL", 23), (encodeStr "IT", 27), (encodeStr "JO", 30),
   (encodeStr "KZ", 20), (encodeStr "KW", 30), (encodeStr "LV", 21),
   (encodeStr "LB", 28), (encodeStr "LI", 21), (encodeStr "LT", 20),
   (encodeStr "LU", 20), (encodeStr "MT", 31), (encodeStr "MR", 27),
   (encodeStr "MU", 30), (encodeStr "MC", 27), (encodeStr "ME", 22),
   (encodeStr "NL", 18), (encodeStr "MK", 19), (encodeStr "NO", 15),
   (encodeStr "PK", 24), (encodeStr "PS", 29), (encodeStr "PL", 28),
   (encodeStr "PT", 25), (encodeStr "QA", 29), (encodeStr "RO", 24),
   (encodeStr "LC", 32), (encodeStr "SM", 27), (encodeStr "SA", 24),
   (encodeStr "RS", 22), (encodeStr "SC", 31), (encodeStr "SK", 24),
   (encodeStr "SI", 19), (encodeStr "ES", 24), (encodeStr "SE", 24),
   (encodeStr "CH", 21), (encodeStr "TL", 23), (encodeStr "TR", 26),
   (encodeStr "UA", 29), (encodeStr "AE", 23), (encodeStr "GB", 22),
   (encodeStr "VA", 22)]

/-- `src/forwarder/utils/iban.py`, `IBANValidator.requires_iban`:
membership of the uppercased country name in the mandatory set. -/
def requires_iban (country : List Nat) : Bool :=
  decide (pyUpper country ∈ IBAN_MANDATORY_COUNTRIES)

/-- `src/forwarder/utils/iban.py`, `IBANValidator.clean_iban`:
`''.join(iban.split()).upper()` — remove all whitespace, uppercase. -/
def clean_iban (iban : List Nat) : List Nat :=
  pyUpper (pySplit iban).flatten

/-- The shape required by `re.match(r'^[A-Z]\x7b2\x7d[0-9A-Z]\x7b2,\x7d$', iban)`:
two uppercase letters followed by at least two characters in `[0-9A-Z]`. -/
def iban_shape : List Nat → Bool
  | a :: b :: rest =>
    isUpperAlpha a && isUpperAlpha b && decide (2 ≤ rest.length) &&
      rest.all fun n => pyIsDigit n || isUpperAlpha n
  | _ => false

/-- The integer value of the digit string built by the conversion loop of
`validate_iban`: a digit contributes itself, any other character `ch`
contributes the two decimal digits of `ord(ch) - ord('A') + 10` (for the
uppercase letters that survive the shape check this value is 10-35, so
appending it multiplies the accumulator by 100). -/
def iban_numeric_val (l : List Nat) : Nat :=
  l.foldl (fun acc n => if pyIsDigit n then acc * 10 + (n - 48) else acc * 100 + (n - 55)) 0

/-- `src/forwarder/utils/iban.py`, `IBANValidator.validate_iban`.
The interpolated parts of the length diagnostic are elided; no claim
depends on that message text. -/
def validate_iban (iban : List Nat) : Bool × List Nat :=
  if iban = [] then (false, encodeStr "IBAN is empty")
  else
    let c := clean_iban iban
    if iban_shape c then
      match IBAN_LENGTHS.lookup (c.take 2) with
      | none => (false, encodeStr "Unknown country code: " ++ c.take 2)
      | some expected =>
        if c.length = expected then
          if iban_numeric_val (c.drop 4 ++ c.take 4) % 97 = 1 then
            (true, encodeStr "IBAN is valid")
          else (false, encodeStr "IBAN checksum is invalid")
        else (false, encodeStr "IBAN length incorrect.")
    else (false, encodeStr "IBAN format is invalid (must start with country code)")

/-- The validity condition in the words of the spec (section 4.2 / claim C3):
after uppercasing and removing whitespace the string must match the
country-code shape, its two-letter prefix must be a key of the length
table, its length must equal the table entry, and moving the first four
characters to the end and replacing letters by their numeric equivalents
must give a decimal value congruent to 1 modulo 97. -/
def spec_checksum_valid (iban : List Nat) : Bool :=
  let c := clean_iban iban
  iban_shape c &&
    (match IBAN_LENGTHS.lookup (c.take 2) with
     | none => false
     | some expected =>
       decide (c.length = expected) &&
         decide (iban_numeric_val (c.drop 4 ++ c.take 4) % 97 = 1))

end IBANValidator

/-- Python `str.isalnum` restricted to ASCII: a digit or a letter. -/
def pyIsAlnum (n : Nat) : Bool :=
  pyIsDigit n || isUpperAlpha n || decide (97 ≤ n ∧ n ≤ 122)

/-- Helper for `pySplitOn`. -/
def pySplitOnAux (sep : Nat) : List Nat → List Nat → List (List Nat)
  | [], acc => [acc.reverse]
  | c :: cs, acc =>
    if c = sep then acc.reverse :: pySplitOnAux sep cs []
    else pySplitOnAux sep cs (c :: acc)

/-- Python `str.split(sep)` for a one-character separator: split at every
occurrence, keeping empty pieces. -/
def pySplitOn (sep : Nat) (l : List Nat) : List (List Nat) :=
  pySplitOnAux sep l []

/-- The fixed field enumeration of `extract_message_details`
(`src/forwarder/utils/message.py`). -/
inductive Field
  | order_ref | currency | amount | payout_company | purpose | remark
  | beneficiary_name | beneficiary_country | beneficiary_address
  | account_number | iban | swift_code | bank_name | bank_address
  | bank_country
  deriving DecidableEq

namespace Message

/-- `src/forwarder/utils/message.py`, `clean_field_value`: per-field value
normalization.  `value.strip('[]')` drops leading/trailing square
brackets, then `value.strip()` drops surrounding whitespace; the
`amount` branch keeps digits and separators and disambiguates comma/dot;
the `iban`/`account_number`/`swift_code` branch keeps alphanumerics and
uppercases the IBAN and SWIFT code.  (In the both-separators branch the
source's `.replace('.', '')` on the joined left parts is a no-op made
literal here by the extra filter.) -/
def clean_field_value (field : Field) (value : List Nat) : List Nat :=
  if value = [] then value
  else
    let value := pyStrip (fun n => decide (n = 91 ∨ n = 93)) value
    let value := pyStrip pyIsSpace value
    if field = Field.amount then
      let v := value.filter fun n => pyIsDigit n || decide (n = 44 ∨ n = 46)
      if decide (44 ∈ v) && !decide (46 ∈ v) then
        v.map fun n => if n = 44 then 46 else n
      else if decide (44 ∈ v) && decide (46 ∈ v) then
        let parts := pySplitOn 46 (v.map fun n => if n = 44 then 46 else n)
        ((parts.dropLast.flatten).filter fun n => !(n == 46)) ++
          46 :: parts.getLastD []
      else v
    else if field = Field.iban ∨ field = Field.account_number ∨
        field = Field.swift_code then
      let v := value.filter pyIsAlnum
      if field = Field.swift_code then pyUpper v
      else if field = Field.iban then pyUpper v
      else v
    else value

end Message

/-- The three states a key of the extracted-details dict can be in:
missing from the dict, bound to `None`, or bound to a string. -/
inductive Entry
  | absent
  | null
  | str (v : List Nat)
  deriving DecidableEq

/-- Python truthiness of a dict lookup result (`None` and missing keys
via `.get` are falsy, a string is truthy iff nonempty). -/
def Entry.truthy : Entry → Bool
  | .str v => decide (v ≠ [])
  | _ => false

namespace Message

/-- The cleaning applied to a raw regex match in `extract_message_details`
(`src/forwarder/utils/message.py`): `match.group(1).strip()`, then
`re.sub` dropping a trailing run of colons, pipes, commas and whitespace,
then `clean_field_value`. -/
def clean_match (field : Field) (raw : List Nat) : List Nat :=
  let v := pyStrip pyIsSpace raw
  let v := (v.reverse.dropWhile fun n =>
    decide (n = 58 ∨ n = 124 ∨ n = 44) || pyIsSpace n).reverse
  clean_field_value field v

/-- `src/forwarder/utils/message.py`, `extract_message_details`, per-field
loop.  The regex search is abstracted as the parameter `raw` (the
`group(1)` text when the field's pattern matches, `none` otherwise); the
post-match handling — cleaning, inserting the key only when the cleaned
value is truthy (`if value:`), and binding the key to `None` when the
pattern does not match — is modelled exactly. -/
def extract_message_details (raw : Field → Option (List Nat)) : Field → Entry :=
  fun f =>
    match raw f with
    | none => Entry.null
    | some v =>
      let value := clean_match f v
      if value = [] then Entry.absent else Entry.str value

end Message

namespace OrderProcessor

/-- The label/field pairs of the `required_fields` dict in
`OrderProcessor._validate_required_fields` (`src/forwarder/utils/order.py`),
in source order. -/
def required_fields : List (List Nat × Field) :=
  [(encodeStr "SWIFT Code", Field.swift_code),
   (encodeStr "Bank Name", Field.bank_name),
   (encodeStr "Order Reference", Field.order_ref),
   (encodeStr "Currency", Field.currency),
   (encodeStr "Amount", Field.amount),
   (encodeStr "Beneficiary Name", Field.beneficiary_name)]

/-- The entry appended for a missing required field. -/
def missingMsg (label : List Nat) : List Nat :=
  encodeStr "❌ *" ++ label ++ encodeStr "*: Missing"

/-- The entry appended when neither IBAN nor account number is given. -/
def account_info_msg : List Nat :=
  encodeStr "❌ *Account Information*: Either IBAN or Account Number is required"

/-- `src/forwarder/utils/order.py`, `OrderProcessor._validate_required_fields`.
`none` models the `KeyError` a direct `details[...]` access raises when a
required key is entirely absent; otherwise `some (returnValue, failed)`
where `failed` lists the strings appended to `validation_results.failed`,
in order (the account-information entry first, as in the source). -/
def validate_required_fields (d : Field → Entry) : Option (Bool × List (List Nat)) :=
  if required_fields.all (fun p => decide (d p.2 ≠ Entry.absent)) then
    let has_account_info := (d Field.iban).truthy || (d Field.account_number).truthy
    let acct_fails := if has_account_info then [] else [account_info_msg]
    let field_fails := required_fields.filterMap fun p =>
      if (d p.2).truthy then none else some (missingMsg p.1)
    let is_valid := required_fields.all fun p => (d p.2).truthy
    some (is_valid && has_account_info, acct_fails ++ field_fails)
  else none

end OrderProcessor

/-- A Python `dict.get` result as an optional string (`None` and missing
keys collapse to `none`). -/
def Entry.toOpt : Entry → Option (List Nat)
  | Entry.str v => some v
  | _ => none

/-- Python `x is not None` for a `dict.get` result: true exactly when a
string (possibly empty) is bound. -/
def Entry.isNotNone : Entry → Bool
  | Entry.str _ => true
  | _ => false

namespace OrderProcessor

/-- The warning appended when SWIFT verification reports invalid:
`f"⚠️ *SWIFT Verification Warning*:\n\x7bswift_message\x7d"`. -/
def swift_warning_msg (m : List Nat) : List Nat :=
  encodeStr "⚠️ *SWIFT Verification Warning*:\n" ++ m

/-- The hard failure appended when an IBAN is required but absent (the
country name is interpolated; `None` prints differently in Python but no
claim depends on that rendering). -/
def iban_required_msg (c : Option (List Nat)) : List Nat :=
  encodeStr "❌ *IBAN Required*:\n• Country " ++ c.getD [] ++
    encodeStr " requires IBAN\n• Please provide a valid IBAN"

/-- The hard failure appended when the IBAN checksum validation fails. -/
def iban_verification_failed_msg (t : List Nat) : List Nat :=
  encodeStr "❌ *IBAN Verification*: " ++ t

/-- Result of `_validate_bank_details`: the return value and the entries
appended to the three outcome lists during the call. -/
structure BankDetailsResult where
  ret : Bool
  passed : List (List Nat)
  failed : List (List Nat)
  warnings : List (List Nat)
  deriving DecidableEq

/-- The entry appended to `passed` for the SWIFT stage (only on success). -/
def swift_passed (swift_valid : Bool) : List (List Nat) :=
  if swift_valid then [encodeStr "✅ *SWIFT Verification*: Valid"] else []

/-- The entry appended to `warnings` for the SWIFT stage (only on failure). -/
def swift_warnings (swift_valid : Bool) (swift_message : List Nat) : List (List Nat) :=
  if swift_valid then [] else [swift_warning_msg swift_message]

/-- `effective_country = swift_country or details.get('bank_country')`
(Python `or`: an empty resolved string falls through to the message's
bank country). -/
def effective_country (swift_country : Option (List Nat)) (bank_country : Entry) :
    Option (List Nat) :=
  match swift_country with
  | some c => if c = [] then bank_country.toOpt else some c
  | none => bank_country.toOpt

/-- Truthiness of `effective_country`. -/
def country_truthy : Option (List Nat) → Bool
  | some c => decide (c ≠ [])
  | none => false

/-- `needs_iban_validation = iban is not None or (check_iban and
effective_country and requires_iban(effective_country))`. -/
def needs_iban_validation (iban : Entry) (check_iban : Bool)
    (ec : Option (List Nat)) : Bool :=
  iban.isNotNone ||
    (check_iban && country_truthy ec &&
      (match ec with
       | some c => IBANValidator.requires_iban c
       | none => false))

/-- `src/forwarder/utils/order.py`, `OrderProcessor._validate_bank_details`.
The outcome of the (external, awaited) `verify_swift_and_iban` call is
the parameter triple `swift_valid, swift_message, swift_country`; `iban`
and `bank_country` are the dict lookups `details.get(...)`.  The account
number feeds only the abstracted verify call, so it does not appear.
`check_iban` is `validation_rules.get('check_iban')`. -/
def validate_bank_details (swift_valid : Bool) (swift_message : List Nat)
    (swift_country : Option (List Nat)) (iban bank_country : Entry)
    (check_iban : Bool) : BankDetailsResult :=
  if needs_iban_validation iban check_iban (effective_country swift_country bank_country) then
    if !iban.truthy then
      { ret := false, passed := swift_passed swift_valid,
        failed := [iban_required_msg (effective_country swift_country bank_country)],
        warnings := swift_warnings swift_valid swift_message }
    else if (IBANValidator.validate_iban (iban.toOpt.getD [])).1 then
      { ret := true,
        passed := swift_passed swift_valid ++ [encodeStr "✅ *IBAN Verification*: Valid"],
        failed := [], warnings := swift_warnings swift_valid swift_message }
    else
      { ret := false, passed := swift_passed swift_valid,
        failed := [iban_verification_failed_msg
          (IBANValidator.validate_iban (iban.toOpt.getD [])).2],
        warnings := swift_warnings swift_valid swift_message }
  else
    { ret := true, passed := swift_passed swift_valid, failed := [],
      warnings := swift_warnings swift_valid swift_message }

end OrderProcessor



namespace SanctionsService

/-- The relevant slice of a screening HTTP response. -/
structure ScreeningResponse where
  status : Nat
  total_hits : Nat
  found_records : List (List Nat)
  deriving DecidableEq

/-- The dict returned by `check_entity`; optional fields model possibly
missing keys (the transport-failure `except` branch returns the empty
dict, which has neither).  The `core_name`/`original_name` bookkeeping
keys are omitted; no claim mentions them. -/
structure SanctionsDict where
  total_hits : Option Nat
  found_records : Option (List (List Nat))
  deriving DecidableEq

/-- `src/forwarder/utils/sanctions_service.py`, `SanctionsService.check_entity`:
`resp = none` models a raised transport/connect error; a 200 response
passes the payload through; any other status falls to the
zero-hits/empty-records return. -/
def check_entity (resp : Option ScreeningResponse) : SanctionsDict :=
  match resp with
  | some r =>
    if r.status = 200 then
      { total_hits := some r.total_hits, found_records := some r.found_records }
    else { total_hits := some 0, found_records := some [] }
  | none => { total_hits := none, found_records := none }

/-- `sanctions_result.get("total_hits", 0)`. -/
def SanctionsDict.totalHitsD (d : SanctionsDict) : Nat :=
  d.total_hits.getD 0

/-- `src/forwarder/utils/sanctions_service.py`, `SanctionsService.validate_entity`,
the classification of a screening dict:
`is_sanctioned = sanctions_result.get("total_hits", 0) > 0`,
`is_valid = not is_sanctioned`. -/
def classify_entity (d : SanctionsDict) : Bool :=
  !(decide (d.totalHitsD > 0))

end SanctionsService

namespace Swift

/-- The relevant slice of the lookup response `data` object
(`bank.name`, `branch_name`, `address`, `country.name`). -/
structure SwiftData where
  bank_name : List Nat
  branch_name : List Nat
  address : List Nat
  country_name : List Nat
  deriving DecidableEq

/-- A lookup HTTP response: status plus `success` envelope plus `data`;
`data = none` models an envelope whose mandatory keys are missing (the
resulting `KeyError` is caught by the outer `except`).  `resp = none` in
`verify_swift_and_iban` models a transport error. -/
structure SwiftResponse where
  status : Nat
  success : Bool
  data : Option SwiftData
  deriving DecidableEq

/-- Python substring test `a in b`. -/
def isSubstring (a b : List Nat) : Bool :=
  b.tails.any fun t => a.isPrefixOf t

/-- The bank-name mismatch message of `verify_swift_and_iban`. -/
def mismatch_msg (bank_name norm_bank swift_bank norm_swift branch : List Nat) : List Nat :=
  encodeStr "❌ Bank name mismatch!\n\nPROVIDED BANK NAME:\n" ++ bank_name ++
    encodeStr "\n(Normalized: " ++ norm_bank ++
    encodeStr ")\n\nSWIFT BANK NAME:\n" ++ swift_bank ++
    encodeStr "\n(Normalized: " ++ norm_swift ++
    encodeStr ")\n\nSWIFT Bank Branch: " ++ branch ++
    encodeStr "\n\nNote: The SWIFT bank name should be part of the provided bank name."

/-- The success message of `verify_swift_and_iban` (Python renders a
`None` bank name as the text `None`; the claims do not depend on that
rendering, `getD` elides it). -/
def verify_ok_msg (bank_name : Option (List Nat)) (d : SwiftData) : List Nat :=
  encodeStr "Order Bank Name: " ++ bank_name.getD [] ++
    encodeStr "\nSwift Bank Name: " ++ d.bank_name ++
    encodeStr "\nBranch: " ++ d.branch_name ++
    encodeStr "\nAddress: " ++ d.address ++ encodeStr "\n"

/-- `src/forwarder/utils/swift.py`, `Swift.verify_swift_and_iban`.
The HTTP call is the parameter `resp`; the account number is accepted by
the source but never used inside the function body, so it does not
appear.  Returns `(is_valid, message, country_name)`. -/
def verify_swift_and_iban (resp : Option SwiftResponse) (swift_code : List Nat)
    (bank_name : Option (List Nat)) : Bool × List Nat × Option (List Nat) :=
  match resp with
  | none => (false, encodeStr "❌ SWIFT verification failed: ", none)
  | some r =>
    if r.status ≠ 200 then
      (false, encodeStr "❌ Invalid SWIFT code: " ++ swift_code, none)
    else if !r.success then
      (false, encodeStr "❌ Invalid SWIFT code: " ++ swift_code, none)
    else
      match r.data with
      | none => (false, encodeStr "❌ SWIFT verification failed: ", none)
      | some d =>
        match bank_name with
        | some b =>
          if b ≠ [] then
            if !(isSubstring (clean_text d.bank_name) (clean_text b)) &&
                !(isSubstring (clean_text b) (clean_text d.bank_name)) then
              (false, mismatch_msg b (clean_text b) d.bank_name (clean_text d.bank_name)
                d.branch_name, some d.country_name)
            else (true, verify_ok_msg (some b) d, some d.country_name)
          else (true, verify_ok_msg (some b) d, some d.country_name)
        | none => (true, verify_ok_msg none d, some d.country_name)

end Swift

/-- The externally observable side effects of the tail of
`OrderProcessor.process_order` (`src/forwarder/utils/order.py`). -/
inductive Effect
  | createOrder
  | addOrderDetails
  | updateVrSheet
  | updateHdPaySheet
  | validationReport
  | successReport
  deriving DecidableEq

namespace OrderProcessor

/-- `src/forwarder/utils/order.py`, `OrderProcessor._process_sheets`:
result, effects, and passed/warnings entries appended.  `addOk` is the
return of `internal_manager.add_order_details`; `raises` models an
exception inside the `try` (the effects already performed before the
raise are elided — no claim depends on them). -/
def process_sheets (addOk raises : Bool) :
    Bool × List Effect × List (List Nat) × List (List Nat) :=
  if raises then (false, [], [], [encodeStr "⚠️ *Sheet Processing*: "])
  else
    (true, [Effect.addOrderDetails, Effect.updateVrSheet, Effect.updateHdPaySheet],
      if addOk then [encodeStr "✅ *Database*: Order details saved"] else [],
      if addOk then [] else [encodeStr "⚠️ *Database*: Failed to save order details"])

/-- `src/forwarder/utils/order.py`, `OrderProcessor.process_order`,
lines 132-150 (reached only when every validation passed): the
persistence attempt, the sheets processing and the final report.
`dbOk = false` models `order_repo.create_order` raising: the source
appends a warning and sets `validation_passed = False`, but that flag is
never consulted again — `_process_sheets` and the final report do not
depend on it.  Returns `(returnValue, effects, passedAppended,
warningsAppended)`. -/
def process_order_tail (dbOk addOk raises : Bool) :
    Bool × List Effect × List (List Nat) × List (List Nat) :=
  let dbPassed := if dbOk then [encodeStr "✅ *Database*: Order saved successfully"] else []
  let dbWarn := if dbOk then [] else [encodeStr "⚠️ *Database*: Failed to save order"]
  let sheets := process_sheets addOk raises
  if sheets.1 then
    (true, Effect.createOrder :: sheets.2.1 ++ [Effect.successReport],
      dbPassed ++ sheets.2.2.1, dbWarn ++ sheets.2.2.2)
  else
    (false, Effect.createOrder :: sheets.2.1 ++ [Effect.validationReport],
      dbPassed ++ sheets.2.2.1, dbWarn ++ sheets.2.2.2)

end OrderProcessor



/-- A token of the label regexes of `src/forwarder/utils/message.py`: a
case-insensitive literal, or `\\s*` (any run of whitespace). -/
inductive Tok
  | lit (s : String)
  | ws
  deriving DecidableEq

/-- Consume a case-insensitive literal (given uppercased) from the head
of `l`, returning the rest on success. -/
def matchLit : List Nat → List Nat → Option (List Nat)
  | [], l => some l
  | _ :: _, [] => none
  | p :: ps, c :: cs => if pyToUpper c = p then matchLit ps cs else none

/-- Prefix-match a token sequence.  `\\s*` is matched greedily, which
agrees with the regex semantics here because in every pattern used a
`\\s*` is followed by a literal that starts with a non-whitespace
character. -/
def matchToks : List Tok → List Nat → Option (List Nat)
  | [], l => some l
  | Tok.lit s :: ts, l => (matchLit (encodeStr s) l).bind (matchToks ts)
  | Tok.ws :: ts, l => matchToks ts (l.dropWhile pyIsSpace)

/-- `re.search`: some suffix of the text matches one of the
alternatives. -/
def searchAny (alts : List (List Tok)) (l : List Nat) : Bool :=
  l.tails.any fun t => alts.any fun alt => (matchToks alt t).isSome

namespace Message

/-- The mandatory cores of the two alternatives of
`r'\\[?(?:Order\\s*Ref(?:erence)?(?:\\s*No\\.)?|Order\\s*No\\.):?]?'`: the
optional bracket, suffix and punctuation groups can match empty, so a
search succeeds iff `Order\\s*Ref` or `Order\\s*No\\.` occurs. -/
def order_ref_alternatives : List (List Tok) :=
  [[Tok.lit "ORDER", Tok.ws, Tok.lit "REF"],
   [Tok.lit "ORDER", Tok.ws, Tok.lit "NO."]]

/-- `src/forwarder/utils/message.py`, `is_order_message`. -/
def is_order_message (l : List Nat) : Bool :=
  searchAny order_ref_alternatives l

/-- The four `required_fields` patterns of `is_valid_order_format` with
their reported names (optional groups reduced away as above;
`Pay\\s*Out\\s*Company[^:]*:?]?` searches iff its core occurs). -/
def required_field_patterns : List (List (List Tok) × List Nat) :=
  [(order_ref_alternatives, encodeStr "Order Reference"),
   ([[Tok.lit "CURRENCY"]], encodeStr "Currency"),
   ([[Tok.lit "AMOUNT"]], encodeStr "Amount"),
   ([[Tok.lit "PAY", Tok.ws, Tok.lit "OUT", Tok.ws, Tok.lit "COMPANY"]],
     encodeStr "Pay Out Company")]

/-- The mandatory cores of the 15 `field_labels` patterns of
`is_valid_order_format` as anchored prefix matchers (`re.match` on
`rf'\\[?\x7blabel\x7d:?\\]?'`): the trailing `:?\\]?` can match empty and never
affects whether a prefix match exists.  The Bool records whether the
optional leading `\\[?` applies to the alternative: in the first label,
`Order\\s*Ref(?:erence)?(?:\\s*No\\.)?|Order\\s*No\\.`, the top-level `|` has
lowest precedence, so the composed pattern's `\\[?` attaches only to the
`Order\\s*Ref` branch — a line starting `[Order No.` is NOT a label line
— while every other label has no top-level alternation and keeps the
optional bracket. -/
def field_label_alternatives : List (Bool × List Tok) :=
  [(true, [Tok.lit "ORDER", Tok.ws, Tok.lit "REF"]),
   (false, [Tok.lit "ORDER", Tok.ws, Tok.lit "NO."]),
   (true, [Tok.lit "CURRENCY"]),
   (true, [Tok.lit "AMOUNT"]),
   (true, [Tok.lit "PAY", Tok.ws, Tok.lit "OUT", Tok.ws, Tok.lit "COMPANY"]),
   (true, [Tok.lit "PURPOSE"]),
   (true, [Tok.lit "REMARK"]),
   (true, [Tok.lit "BENEFICIARY", Tok.ws, Tok.lit "NAME"]),
   (true, [Tok.lit "BENEFICIARY", Tok.ws, Tok.lit "COUNTRY"]),
   (true, [Tok.lit "BENEFICIARY", Tok.ws, Tok.lit "ADDRESS"]),
   (true, [Tok.lit "BANK", Tok.ws, Tok.lit "ACCOUNT", Tok.ws, Tok.lit "NUMBER"]),
   (true, [Tok.lit "IBAN"]),
   (true, [Tok.lit "SWIFT"]),
   (true, [Tok.lit "BANK", Tok.ws, Tok.lit "SWIFT"]),
   (true, [Tok.lit "BANK", Tok.ws, Tok.lit "NAME"]),
   (true, [Tok.lit "BANK", Tok.ws, Tok.lit "ADDRESS"]),
   (true, [Tok.lit "BANK", Tok.ws, Tok.lit "COUNTRY"])]

/-- Anchored match of one alternative: the core tokens at the start of
the line, or — when the alternative carries the optional `\\[?` — after a
single consumed leading `[` (every core starts with a letter, so the
bracket can only be spent on a literal `[`). -/
def matchLabel (l : List Nat) (p : Bool × List Tok) : Bool :=
  (matchToks p.2 l).isSome ||
    (p.1 &&
      match l with
      | 91 :: rest => (matchToks p.2 rest).isSome
      | _ => false)

/-- Does a stripped line start a new recognized field label? -/
def is_field_label_line (l : List Nat) : Bool :=
  field_label_alternatives.any fun p => matchLabel l p

/-- The error for a label line without a colon. -/
def missing_colon_msg (line : List Nat) : List Nat :=
  encodeStr "❌ *Invalid Order Format*\nField label missing colon: " ++ line ++
    encodeStr "\nEach field must be in the format \x27Field: Value\x27"

/-- The error for a content line before any recognized label. -/
def content_without_label_msg (line : List Nat) : List Nat :=
  encodeStr "❌ *Invalid Order Format*\nFound content without a field label: " ++
    line ++ encodeStr "\nEach section must start with a proper field label"

/-- The error for a missing mandatory label. -/
def missing_required_field_msg (name : List Nat) : List Nat :=
  encodeStr "❌ *Invalid Order Format*\nMissing required field: " ++ name

/-- The required-fields loop of `is_valid_order_format`: the first
pattern that does not occur anywhere in the text yields its error. -/
def find_missing_required : List (List (List Tok) × List Nat) → List Nat →
    Option (List Nat)
  | [], _ => none
  | (alts, name) :: rest, text =>
    if searchAny alts text then find_missing_required rest text
    else some (missing_required_field_msg name)

/-- The per-line loop of `is_valid_order_format`: `started` is
`current_field is not None`.  Blank lines are skipped; a label line
must contain a colon; a content line is only allowed after some label. -/
def check_lines : List (List Nat) → Bool → Bool × Option (List Nat)
  | [], _ => (true, none)
  | line :: rest, started =>
    if pyStrip pyIsSpace line = [] then check_lines rest started
    else if is_field_label_line (pyStrip pyIsSpace line) then
      if decide (58 ∈ pyStrip pyIsSpace line) then check_lines rest true
      else (false, some (missing_colon_msg (pyStrip pyIsSpace line)))
    else if !started then
      (false, some (content_without_label_msg (pyStrip pyIsSpace line)))
    else check_lines rest started

/-- `src/forwarder/utils/message.py`, `is_valid_order_format`. -/
def is_valid_order_format (text : List Nat) : Bool × Option (List Nat) :=
  if !is_order_message text then (false, none)
  else
    match find_missing_required required_field_patterns text with
    | some msg => (false, some msg)
    | none => check_lines (pySplitOn 10 (pyStrip pyIsSpace text)) false

end Message

namespace OrderProcessor

/-- `src/forwarder/utils/order.py`, `OrderProcessor.process_order`, the
format-check stage (lines 90-100): on a format failure the error is sent
only when a nonempty message exists and verification messages are
enabled, and processing stops.  Returns `(proceed, reportSent)`. -/
def format_gate (text : List Nat) (enabled : Bool) : Bool × Option (List Nat) :=
  if (Message.is_valid_order_format text).1 then (true, none)
  else
    match (Message.is_valid_order_format text).2 with
    | some m => if m ≠ [] ∧ enabled = true then (false, some m) else (false, none)
    | none => (false, none)

end OrderProcessor


/-- A details map with every required field bound and BOTH an IBAN and an
account number present. -/
def details_with_both : Field → Entry := fun f =>
  match f with
  | Field.iban => Entry.str (encodeStr "DE89370400440532013000")
  | Field.account_number => Entry.str (encodeStr "12345678")
  | _ => Entry.str (encodeStr "X")




end TgOrderBot


namespace TgOrderBot

/-! ### General lemmas about the string primitives -/

theorem pyToUpper_pyToUpper (n : Nat) : pyToUpper (pyToUpper n) = pyToUpper n := by
  unfold pyToUpper
  split
  · split <;> omega
  · rfl

theorem isPunctuation_pyToUpper {n : Nat} (h : isPunctuation n = false) :
    isPunctuation (pyToUpper n) = false := by
  unfold pyToUpper
  split
  · simp only [isPunctuation, decide_eq_false_iff_not] at h ⊢
    omega
  · exact h

theorem map_id_of_fixed {l : List Nat} {f : Nat → Nat} (h : ∀ n ∈ l, f n = n) :
    l.map f = l := by
  induction l with
  | nil => rfl
  | cons a t ih =>
    simp only [List.map_cons, h a (List.mem_cons_self a t)]
    rw [ih fun b hb => h b (List.mem_cons_of_mem a hb)]

/-- Every word produced by `pySplitAux` is nonempty and consists of
non-whitespace characters satisfying `P`, provided the non-whitespace
characters of the input (and all characters of the accumulator) do. -/
theorem pySplitAux_props (P : Nat → Prop) :
    ∀ (l acc : List Nat), (∀ n ∈ l, pyIsSpace n = false → P n) →
      (∀ n ∈ acc, P n ∧ pyIsSpace n = false) →
      ∀ w ∈ pySplitAux l acc, w ≠ [] ∧ ∀ n ∈ w, P n ∧ pyIsSpace n = false := by
  intro l
  induction l with
  | nil =>
    intro acc _ hacc w hw
    simp only [pySplitAux] at hw
    split at hw
    · simp at hw
    · rename_i hne
      simp only [List.mem_singleton] at hw
      subst hw
      refine ⟨by simpa using hne, fun n hn => hacc n (List.mem_reverse.mp hn)⟩
  | cons c cs ih =>
    intro acc hl hacc w hw
    simp only [pySplitAux] at hw
    by_cases hc : pyIsSpace c = true
    · simp only [hc, if_true] at hw
      split at hw
      · exact ih [] (fun n hn h => hl n (List.mem_cons_of_mem c hn) h) (by simp) w hw
      · rcases List.mem_cons.mp hw with rfl | hw'
        · rename_i hne
          refine ⟨by simpa using hne, fun n hn => hacc n (List.mem_reverse.mp hn)⟩
        · exact ih [] (fun n hn h => hl n (List.mem_cons_of_mem c hn) h) (by simp) w hw'
    · simp only [Bool.not_eq_true] at hc
      simp only [hc, Bool.false_eq_true, if_false] at hw
      refine ih (c :: acc) (fun n hn h => hl n (List.mem_cons_of_mem c hn) h) ?_ w hw
      intro n hn
      rcases List.mem_cons.mp hn with h' | hn'
      · subst h'
        exact ⟨hl n (List.mem_cons_self n cs) hc, hc⟩
      · exact hacc n hn'

theorem pySplitAux_append {w : List Nat} (hw : ∀ n ∈ w, pyIsSpace n = false) :
    ∀ (l acc : List Nat), pySplitAux (w ++ l) acc = pySplitAux l (w.reverse ++ acc) := by
  induction w with
  | nil => intro l acc; simp
  | cons c w' ih =>
    intro l acc
    have hc : pyIsSpace c = false := hw c (List.mem_cons_self c w')
    simp only [List.cons_append, pySplitAux, hc, Bool.false_eq_true, if_false]
    have hih := ih (fun n hn => hw n (List.mem_cons_of_mem c hn)) l (c :: acc)
    simp only [List.reverse_cons, List.append_assoc, List.singleton_append]
    exact hih

theorem pySplit_pyJoinSp :
    ∀ ws : List (List Nat),
      (∀ w ∈ ws, w ≠ [] ∧ ∀ n ∈ w, pyIsSpace n = false) →
      pySplit (pyJoinSp ws) = ws := by
  intro ws
  induction ws with
  | nil => intro _; rfl
  | cons w ws' ih =>
    intro h
    have hw := h w (List.mem_cons_self w ws')
    cases ws' with
    | nil =>
      show pySplitAux (pyJoinSp [w]) [] = [w]
      have : pyJoinSp [w] = w ++ [] := by simp [pyJoinSp]
      rw [this, pySplitAux_append hw.2, pySplitAux]
      simp [hw.1]
    | cons w' ws'' =>
      show pySplitAux (w ++ 32 :: pyJoinSp (w' :: ws'')) [] = w :: w' :: ws''
      rw [pySplitAux_append hw.2]
      have h32 : pyIsSpace 32 = true := by decide
      simp only [pySplitAux, h32, if_true, List.append_nil]
      have hne : w.reverse ≠ [] := by simpa using hw.1
      simp only [hne, if_false, List.reverse_reverse]
      have hih := ih fun v hv => h v (List.mem_cons_of_mem w hv)
      unfold pySplit at hih
      rw [hih]

theorem mem_pyJoinSp :
    ∀ (ws : List (List Nat)) (n : Nat), n ∈ pyJoinSp ws → n = 32 ∨ ∃ w ∈ ws, n ∈ w := by
  intro ws
  induction ws with
  | nil => intro n hn; simp [pyJoinSp] at hn
  | cons w ws' ih =>
    intro n hn
    cases ws' with
    | nil =>
      right
      exact ⟨w, List.mem_cons_self w [], by simpa [pyJoinSp] using hn⟩
    | cons w' ws'' =>
      have : n ∈ w ++ 32 :: pyJoinSp (w' :: ws'') := hn
      rcases List.mem_append.mp this with h | h
      · exact Or.inr ⟨w, List.mem_cons_self w _, h⟩
      · rcases List.mem_cons.mp h with rfl | h'
        · exact Or.inl rfl
        · rcases ih n h' with h32 | ⟨v, hv, hnv⟩
          · exact Or.inl h32
          · exact Or.inr ⟨v, List.mem_cons_of_mem w hv, hnv⟩

end TgOrderBot

namespace TgOrderBot

/-- C10: The bank-name normalization function used for comparison is
idempotent: for every string `s`, `clean_text (clean_text s) = clean_text s`
(`src/forwarder/utils/swift.py`, `Swift.clean_text`). -/
theorem clean_text_idempotent (l : List Nat) :
    Swift.clean_text (Swift.clean_text l) = Swift.clean_text l := by
  have hgood : ∀ n ∈ pyUpper (l.filter fun n => !isPunctuation n),
      isPunctuation n = false ∧ pyToUpper n = n := by
    intro n hn
    rcases List.mem_map.mp hn with ⟨m, hm, rfl⟩
    have hmp : isPunctuation m = false := by
      have := (List.mem_filter.mp hm).2
      simpa using this
    exact ⟨isPunctuation_pyToUpper hmp, pyToUpper_pyToUpper m⟩
  set ws := (pySplit (pyUpper (l.filter fun n => !isPunctuation n))).filter
    (fun w => decide (w ∉ Swift.company_designations)) with hws
  have hw : ∀ w ∈ ws, w ≠ [] ∧
      ∀ n ∈ w, (isPunctuation n = false ∧ pyToUpper n = n) ∧ pyIsSpace n = false := by
    intro w hwmem
    rw [hws] at hwmem
    have hmem : w ∈ pySplit (pyUpper (l.filter fun n => !isPunctuation n)) :=
      (List.mem_filter.mp hwmem).1
    exact pySplitAux_props (fun n => isPunctuation n = false ∧ pyToUpper n = n) _ []
      (fun n hn _ => hgood n hn) (by simp) w hmem
  have hchar : ∀ n ∈ pyJoinSp ws,
      isPunctuation n = false ∧ pyToUpper n = n := by
    intro n hn
    rcases mem_pyJoinSp ws n hn with rfl | ⟨w, hwmem, hnw⟩
    · exact ⟨by decide, by decide⟩
    · exact ((hw w hwmem).2 n hnw).1
  have hgoal : Swift.clean_text (pyJoinSp ws) = pyJoinSp ws := by
    have h1 : (pyJoinSp ws).filter (fun n => !isPunctuation n) = pyJoinSp ws :=
      List.filter_eq_self.mpr fun n hn => by simp [(hchar n hn).1]
    have h2 : pyUpper (pyJoinSp ws) = pyJoinSp ws :=
      map_id_of_fixed fun n hn => (hchar n hn).2
    have h3 : pySplit (pyJoinSp ws) = ws :=
      pySplit_pyJoinSp ws fun w hwmem =>
        ⟨(hw w hwmem).1, fun n hn => ((hw w hwmem).2 n hn).2⟩
    have h4 : ws.filter (fun w => decide (w ∉ Swift.company_designations)) = ws := by
      refine List.filter_eq_self.mpr fun w hwmem => ?_
      rw [hws] at hwmem
      exact (List.mem_filter.mp hwmem).2
    unfold Swift.clean_text
    rw [h1]
    have h2' : pyUpper (pyJoinSp ws) = pyJoinSp ws := h2
    rw [h2', h3, h4]
  exact hgoal



/-- C3: For every input string, IBAN validation returns valid iff, after
uppercasing and removing whitespace, the string matches the country-code
shape, its two-letter prefix is a key of the fixed per-country length
table, its length equals the table entry, and moving the first four
characters to the end, replacing each letter by its numeric equivalent
(A=10 … Z=35) with digits unchanged, gives a decimal value with
remainder 1 modulo 97; in particular a known-valid IBAN validates and
the same IBAN with a single digit flipped does not
(`src/forwarder/utils/iban.py`, `IBANValidator.validate_iban`). -/
theorem validate_iban_matches_spec :
    (∀ l : List Nat,
      (IBANValidator.validate_iban l).1 = IBANValidator.spec_checksum_valid l) ∧
    (IBANValidator.validate_iban (encodeStr "DE89 3704 0044 0532 0130 00")).1 = true ∧
    (IBANValidator.validate_iban (encodeStr "DE89 3704 0044 0532 0131 00")).1 = false := by
  refine ⟨fun l => ?_, by decide, by decide⟩
  unfold IBANValidator.validate_iban IBANValidator.spec_checksum_valid
  by_cases h0 : l = []
  · subst h0; decide
  · simp only [h0, if_false]
    by_cases hs : IBANValidator.iban_shape (IBANValidator.clean_iban l)
    · simp only [hs, if_true, Bool.true_and]
      cases hlk : (IBANValidator.IBAN_LENGTHS.lookup ((IBANValidator.clean_iban l).take 2)) with
      | none => simp
      | some expected =>
        by_cases hlen : (IBANValidator.clean_iban l).length = expected
        · simp only [hlen, if_true, decide_True, Bool.true_and]
          by_cases hmod :
              IBANValidator.iban_numeric_val
                ((IBANValidator.clean_iban l).drop 4 ++ (IBANValidator.clean_iban l).take 4) % 97 = 1
          · simp [hmod]
          · simp [hmod]
        · simp [hlen]
    · simp [hs]


/-- C4 counterexample: on `"12,345"` the amount normalization yields
`"12.345"`, not the `"12345"` the claim states: a lone comma is replaced
by a dot regardless of how many digits follow it. -/
theorem clean_amount_comma_counterexample :
    Message.clean_field_value Field.amount (encodeStr "12,345") = encodeStr "12.345" ∧
    encodeStr "12.345" ≠ encodeStr "12345" := by
  decide

/-- C4 (amended): Amount normalization maps `"1,234.56"` to `"1234.56"`,
`"1.234,56"` to `"1234.56"`, `"1234,56"` to `"1234.56"`, and `"12,345"`
to `"12.345"`: when only a comma appears it is always treated as a
decimal separator and replaced by a dot, regardless of the number of
digits following it (`src/forwarder/utils/message.py`,
`clean_field_value`). -/
theorem clean_field_value_amount_examples :
    Message.clean_field_value Field.amount (encodeStr "1,234.56") = encodeStr "1234.56" ∧
    Message.clean_field_value Field.amount (encodeStr "1.234,56") = encodeStr "1234.56" ∧
    Message.clean_field_value Field.amount (encodeStr "1234,56") = encodeStr "1234.56" ∧
    Message.clean_field_value Field.amount (encodeStr "12,345") = encodeStr "12.345" := by
  decide


/-- C9: No field of the map returned by field extraction is bound to the
empty string: a label that matches but whose value cleans to the empty
string produces a key that is entirely absent from the map, while a
label that does not match produces a key bound to `None`
(`src/forwarder/utils/message.py`, `extract_message_details`). -/
theorem extract_message_details_no_empty (raw : Field → Option (List Nat)) (f : Field) :
    Message.extract_message_details raw f ≠ Entry.str [] ∧
    (raw f = none → Message.extract_message_details raw f = Entry.null) ∧
    (∀ v, raw f = some v → Message.clean_match f v = [] →
      Message.extract_message_details raw f = Entry.absent) := by
  unfold Message.extract_message_details
  refine ⟨?_, ?_, ?_⟩
  · cases hr : raw f with
    | none => simp
    | some v =>
      by_cases hv : Message.clean_match f v = []
      · simp [hv]
      · simp [hv]
  · intro h; simp [h]
  · intro v hv hcl; simp [hv, hcl]

/-- C9 witness: a concrete instantiation — an unmatched label is bound to
`None`, a matched label whose value cleans to empty is absent, and a
matched nonempty value never yields an empty-string binding. -/
theorem extract_message_details_no_empty_witness :
    Message.extract_message_details (fun _ => none) Field.iban = Entry.null ∧
    Message.extract_message_details (fun _ => some (encodeStr " ,")) Field.purpose
      = Entry.absent := by
  constructor
  · exact (extract_message_details_no_empty (fun _ => none) Field.iban).2.1 rfl
  · exact (extract_message_details_no_empty (fun _ => some (encodeStr " ,"))
      Field.purpose).2.2 (encodeStr " ,") rfl (by decide)

/-- C5 counterexample: a details map with every required field bound and
BOTH an IBAN and an account number present passes the required-fields
check with no `failed` entry, contradicting the claim that exactly one
of the two must be present. -/
theorem validate_required_fields_both_passes :
    OrderProcessor.validate_required_fields details_with_both = some (true, []) := by
  decide

/-- C5 (amended): For every extracted field map in which no required key
is entirely absent, the required-fields check reports success iff every
required field is truthy and AT LEAST one of IBAN / account number is
present, and it appends the account-information `failed` entry iff
neither is present; a map with both present passes this check
(`src/forwarder/utils/order.py`, `OrderProcessor._validate_required_fields`). -/
theorem validate_required_fields_at_least_one (d : Field → Entry)
    (h : ∀ p ∈ OrderProcessor.required_fields, d p.2 ≠ Entry.absent) :
    ∃ b fails, OrderProcessor.validate_required_fields d = some (b, fails) ∧
      (b = true ↔ (∀ p ∈ OrderProcessor.required_fields, (d p.2).truthy = true) ∧
        ((d Field.iban).truthy = true ∨ (d Field.account_number).truthy = true)) ∧
      (OrderProcessor.account_info_msg ∈ fails ↔
        (d Field.iban).truthy = false ∧ (d Field.account_number).truthy = false) := by
  have hall : OrderProcessor.required_fields.all
      (fun p => decide (d p.2 ≠ Entry.absent)) = true := by
    rw [List.all_eq_true]
    intro p hp
    exact decide_eq_true (h p hp)
  unfold OrderProcessor.validate_required_fields
  rw [if_pos hall]
  refine ⟨_, _, rfl, ?_, ?_⟩
  · constructor
    · intro hb
      rw [Bool.and_eq_true, List.all_eq_true] at hb
      rcases hb with ⟨hv, ha⟩
      rw [Bool.or_eq_true] at ha
      exact ⟨hv, ha⟩
    · intro ⟨hv, ha⟩
      rw [Bool.and_eq_true, List.all_eq_true, Bool.or_eq_true]
      exact ⟨hv, ha⟩
  · have hnm : OrderProcessor.account_info_msg ∉
        OrderProcessor.required_fields.filterMap fun p =>
          if (d p.2).truthy then none else some (OrderProcessor.missingMsg p.1) := by
      intro hmem
      rcases List.mem_filterMap.mp hmem with ⟨p, hp, hpe⟩
      have : OrderProcessor.account_info_msg = OrderProcessor.missingMsg p.1 := by
        by_cases ht : (d p.2).truthy
        · simp [ht] at hpe
        · simp [Bool.not_eq_true] at ht
          rw [ht] at hpe
          simpa using hpe.symm
      fin_cases hp <;> revert this <;> decide
    constructor
    · intro hmem
      rcases List.mem_append.mp hmem with hmem | hmem
      · by_cases hacc : ((d Field.iban).truthy || (d Field.account_number).truthy) = true
        · rw [if_pos hacc] at hmem
          simp at hmem
        · rw [Bool.or_eq_true] at hacc
          push_neg at hacc
          simp only [Bool.not_eq_true] at hacc
          exact hacc
      · exact absurd hmem hnm
    · intro ⟨h1, h2⟩
      have hacc : ((d Field.iban).truthy || (d Field.account_number).truthy) = false := by
        rw [h1, h2]; rfl
      rw [hacc]
      simp

/-- C5 amended-claim witness: the amended theorem instantiated at the
both-present map, whose hypotheses hold by computation. -/
theorem validate_required_fields_at_least_one_witness :
    ∃ b fails,
      OrderProcessor.validate_required_fields details_with_both = some (b, fails) ∧
      (b = true ↔ (∀ p ∈ OrderProcessor.required_fields,
          (details_with_both p.2).truthy = true) ∧
        ((details_with_both Field.iban).truthy = true ∨
          (details_with_both Field.account_number).truthy = true)) ∧
      (OrderProcessor.account_info_msg ∈ fails ↔
        (details_with_both Field.iban).truthy = false ∧
        (details_with_both Field.account_number).truthy = false) :=
  validate_required_fields_at_least_one details_with_both (by decide)


/-- The SWIFT warning string never coincides with the IBAN-required
failure entry (their first characters differ). -/
theorem swift_warning_ne_iban_required (m : List Nat) (c : Option (List Nat)) :
    OrderProcessor.swift_warning_msg m ≠ OrderProcessor.iban_required_msg c := by
  intro h
  have h1 : (OrderProcessor.swift_warning_msg m).head? = some 9888 := rfl
  rw [h] at h1
  have h2 : (OrderProcessor.iban_required_msg c).head? = some 10060 := rfl
  rw [h2] at h1
  exact absurd h1 (by decide)

/-- The SWIFT warning string never coincides with the IBAN-verification
failure entry (their first characters differ). -/
theorem swift_warning_ne_iban_verif (m t : List Nat) :
    OrderProcessor.swift_warning_msg m ≠ OrderProcessor.iban_verification_failed_msg t := by
  intro h
  have h1 : (OrderProcessor.swift_warning_msg m).head? = some 9888 := rfl
  rw [h] at h1
  have h2 : (OrderProcessor.iban_verification_failed_msg t).head? = some 10060 := rfl
  rw [h2] at h1
  exact absurd h1 (by decide)

/-- C2 counterexample: a hard bank-identifier lookup failure (invalid
identifier, no resolved country) with an account number instead of an
IBAN appends NO entry to `failed` and does not block: the orchestrator
records the failure message under `warnings` only and returns success
for this stage. -/
theorem swift_hard_failure_only_warns :
    OrderProcessor.validate_bank_details false
      (encodeStr "❌ Invalid SWIFT code: AAAABBCC") none Entry.null Entry.null true
      = { ret := true, passed := [], failed := [],
          warnings := [OrderProcessor.swift_warning_msg
            (encodeStr "❌ Invalid SWIFT code: AAAABBCC")] } := by
  decide

/-- C2 (amended): For every order in which the bank-identifier
verification reports invalid — hard lookup failure and name mismatch
alike — the orchestrator appends exactly the SWIFT warning to
`warnings`, and the SWIFT message never reaches `failed`: entries in
`failed` can only come from the subsequent IBAN checks
(`src/forwarder/utils/order.py`, `OrderProcessor._validate_bank_details`). -/
theorem validate_bank_details_swift_failure_warns (m : List Nat)
    (sc : Option (List Nat)) (iban bc : Entry) (ci : Bool) :
    (OrderProcessor.validate_bank_details false m sc iban bc ci).warnings
        = [OrderProcessor.swift_warning_msg m] ∧
    OrderProcessor.swift_warning_msg m ∉
      (OrderProcessor.validate_bank_details false m sc iban bc ci).failed := by
  refine ⟨?_, ?_⟩
  · unfold OrderProcessor.validate_bank_details
    repeat' split
    all_goals rfl
  · unfold OrderProcessor.validate_bank_details
    repeat' split
    all_goals
      first
      | exact List.not_mem_nil _
      | (simp only [List.mem_singleton]
         first
         | exact swift_warning_ne_iban_required m _
         | exact swift_warning_ne_iban_verif m _)


/-- C6: A screening call with a non-200 response or a transport failure
yields a result whose total hit count reads as zero instead of an error,
and classification of any screening result is valid iff that count is
zero — so degraded calls classify as passed
(`src/forwarder/utils/sanctions_service.py`, `check_entity` /
`validate_entity`). -/
theorem degraded_screening_passes :
    (∀ resp : Option SanctionsService.ScreeningResponse,
      (resp = none ∨ ∃ r, resp = some r ∧ r.status ≠ 200) →
      (SanctionsService.check_entity resp).totalHitsD = 0 ∧
        SanctionsService.classify_entity (SanctionsService.check_entity resp) = true) ∧
    (∀ d : SanctionsService.SanctionsDict,
      SanctionsService.classify_entity d = true ↔ d.totalHitsD = 0) := by
  constructor
  · intro resp h
    rcases h with rfl | ⟨r, rfl, hr⟩
    · exact ⟨rfl, rfl⟩
    · simp only [SanctionsService.check_entity]
      rw [if_neg hr]
      exact ⟨rfl, rfl⟩
  · intro d
    unfold SanctionsService.classify_entity
    constructor
    · intro h
      simp only [Bool.not_eq_true', decide_eq_false_iff_not] at h
      omega
    · intro h
      simp [h]

/-- C6 witness: a 500-status response with three hits reads as zero hits
and classifies as passed. -/
theorem degraded_screening_passes_witness :
    (SanctionsService.check_entity (some ⟨500, 3, []⟩)).totalHitsD = 0 ∧
      SanctionsService.classify_entity
        (SanctionsService.check_entity (some ⟨500, 3, []⟩)) = true :=
  degraded_screening_passes.1 (some ⟨500, 3, []⟩) (Or.inr ⟨_, rfl, by decide⟩)

/-- C8: Whenever the bank-identifier lookup succeeds (200 status,
success envelope, well-formed data), the returned triple carries the
resolved country as a non-`None` third component — both on a name match
and on a mismatch — and conversely a non-`None` country occurs only for
such successful lookups (`src/forwarder/utils/swift.py`,
`Swift.verify_swift_and_iban`). -/
theorem resolved_country_iff_lookup_success :
    (∀ (r : Swift.SwiftResponse) (d : Swift.SwiftData) (sc : List Nat)
        (bn : Option (List Nat)),
      r.status = 200 → r.success = true → r.data = some d →
      (Swift.verify_swift_and_iban (some r) sc bn).2.2 = some d.country_name) ∧
    (∀ (resp : Option Swift.SwiftResponse) (sc : List Nat) (bn : Option (List Nat)),
      (Swift.verify_swift_and_iban resp sc bn).2.2 ≠ none →
      ∃ r d, resp = some r ∧ r.status = 200 ∧ r.success = true ∧ r.data = some d) := by
  constructor
  · intro r d sc bn hst hsu hd
    simp only [Swift.verify_swift_and_iban]
    rw [if_neg (by simp [hst]), if_neg (by simp [hsu]), hd]
    rcases bn with _ | b
    · rfl
    · repeat' split
      all_goals simp_all
  · intro resp sc bn h
    rcases resp with _ | r
    · exact absurd rfl h
    · by_cases hst : r.status = 200
      · by_cases hsu : r.success = true
        · rcases hd : r.data with _ | d
          · simp only [Swift.verify_swift_and_iban] at h
            rw [if_neg (by simp [hst]), if_neg (by simp [hsu]), hd] at h
            exact absurd rfl h
          · exact ⟨r, d, rfl, hst, hsu, hd⟩
        · simp only [Swift.verify_swift_and_iban] at h
          rw [if_neg (by simp [hst]), if_pos (by simp_all)] at h
          exact absurd rfl h
      · simp only [Swift.verify_swift_and_iban] at h
        rw [if_pos hst] at h
        exact absurd rfl h

/-- C8 witness: a concrete successful lookup with a mismatching claimed
bank name still carries the resolved country. -/
theorem resolved_country_iff_lookup_success_witness :
    (Swift.verify_swift_and_iban
      (some ⟨200, true, some ⟨encodeStr "DEUTSCHE BANK AG", [], [],
        encodeStr "GERMANY"⟩⟩)
      (encodeStr "DEUTDEFF") (some (encodeStr "SOME OTHER BANK"))).2.2
      = some (encodeStr "GERMANY") :=
  resolved_country_iff_lookup_success.1
    ⟨200, true, some ⟨encodeStr "DEUTSCHE BANK AG", [], [], encodeStr "GERMANY"⟩⟩
    ⟨encodeStr "DEUTSCHE BANK AG", [], [], encodeStr "GERMANY"⟩
    (encodeStr "DEUTDEFF") (some (encodeStr "SOME OTHER BANK")) rfl rfl rfl

/-- C1 (code bug): when persistence fails (`create_order` raises) but
every validation passed, the orchestrator still runs the spreadsheet
operations and still sends the success report, returning `True`; the
`validation_passed = False` set in the `except` branch is never
consulted again.  This contradicts the source's own comment "Process
sheets only if all validations passed" and the spec's precondition. -/
theorem persistence_failure_still_propagates :
    (OrderProcessor.process_order_tail false true false).1 = true ∧
    Effect.addOrderDetails ∈ (OrderProcessor.process_order_tail false true false).2.1 ∧
    Effect.updateVrSheet ∈ (OrderProcessor.process_order_tail false true false).2.1 ∧
    Effect.successReport ∈ (OrderProcessor.process_order_tail false true false).2.1 ∧
    (OrderProcessor.process_order_tail false true false).2.2.2
      = [encodeStr "⚠️ *Database*: Failed to save order"] := by
  decide


/-- A list with a known head is nonempty. -/
theorem ne_nil_of_head_eq {m : List Nat} {k : Nat} (h : m.head? = some k) :
    m ≠ [] := by
  intro h0
  rw [h0] at h
  exact absurd h (by simp)

/-- Every error produced by the required-fields loop is nonempty. -/
theorem find_missing_required_ne_nil :
    ∀ (ps : List (List (List Tok) × List Nat)) (t m : List Nat),
      Message.find_missing_required ps t = some m → m ≠ [] := by
  intro ps
  induction ps with
  | nil => intro t m h; simp [Message.find_missing_required] at h
  | cons p rest ih =>
    intro t m h
    rcases p with ⟨alts, name⟩
    simp only [Message.find_missing_required] at h
    split at h
    · exact ih t m h
    · injection h with h2
      exact h2 ▸ ne_nil_of_head_eq
        (rfl : (Message.missing_required_field_msg name).head? = some 10060)

/-- Whenever the line loop rejects, it carries a nonempty error. -/
theorem check_lines_false_msg :
    ∀ (lines : List (List Nat)) (started : Bool) (b : Bool)
      (mo : Option (List Nat)),
      Message.check_lines lines started = (b, mo) → b = false →
      ∃ m, mo = some m ∧ m ≠ [] := by
  intro lines
  induction lines with
  | nil =>
    intro started b mo heq hb
    simp only [Message.check_lines] at heq
    cases heq
    exact absurd hb (by decide)
  | cons line rest ih =>
    intro started b mo heq hb
    simp only [Message.check_lines] at heq
    split at heq
    · exact ih started b mo heq hb
    · split at heq
      · split at heq
        · exact ih true b mo heq hb
        · cases heq
          exact ⟨_, rfl, ne_nil_of_head_eq
            (rfl : (Message.missing_colon_msg _).head? = some 10060)⟩
      · split at heq
        · cases heq
          exact ⟨_, rfl, ne_nil_of_head_eq
            (rfl : (Message.content_without_label_msg _).head? = some 10060)⟩
        · exact ih started b mo heq hb

/-- C7: A message without any order-reference marker fails format
validation with no error message and the orchestrator sends no report,
terminating silently; a message with the marker that violates the format
always gets a specific nonempty user-facing error string
(`src/forwarder/utils/message.py`, `is_order_message` /
`is_valid_order_format`; `src/forwarder/utils/order.py`,
`OrderProcessor.process_order`). -/
theorem format_validation_silent_or_specific :
    (∀ (text : List Nat) (enabled : Bool),
      Message.is_order_message text = false →
      Message.is_valid_order_format text = (false, none) ∧
      OrderProcessor.format_gate text enabled = (false, none)) ∧
    (∀ text : List Nat, Message.is_order_message text = true →
      (Message.is_valid_order_format text).1 = false →
      ∃ m, (Message.is_valid_order_format text).2 = some m ∧ m ≠ []) := by
  constructor
  · intro text enabled h
    have h1 : Message.is_valid_order_format text = (false, none) := by
      unfold Message.is_valid_order_format
      rw [h]
      rfl
    refine ⟨h1, ?_⟩
    unfold OrderProcessor.format_gate
    rw [h1]
    rfl
  · intro text hmark hvalid
    have hred : Message.is_valid_order_format text =
        (match Message.find_missing_required Message.required_field_patterns text with
         | some msg => (false, some msg)
         | none => Message.check_lines (pySplitOn 10 (pyStrip pyIsSpace text)) false) := by
      unfold Message.is_valid_order_format
      rw [hmark]
      rfl
    cases hf : Message.find_missing_required Message.required_field_patterns text with
    | some msg =>
      rw [hred, hf]
      exact ⟨msg, rfl, find_missing_required_ne_nil _ _ _ hf⟩
    | none =>
      rw [hred, hf] at hvalid
      rw [hred, hf]
      exact check_lines_false_msg _ false _ _ rfl hvalid

/-- C7 witness: a marker-free message is rejected silently (no report
even with verification messages enabled), while a marker-bearing message
missing its Amount label gets a nonempty error. -/
theorem format_validation_silent_or_specific_witness :
    (Message.is_valid_order_format (encodeStr "hello world") = (false, none) ∧
      OrderProcessor.format_gate (encodeStr "hello world") true = (false, none)) ∧
    ∃ m, (Message.is_valid_order_format
        (encodeStr "Order Ref: 1\nCurrency: USD\nPay Out Company: X")).2
      = some m ∧ m ≠ [] :=
  ⟨format_validation_silent_or_specific.1 (encodeStr "hello world") true (by decide),
   format_validation_silent_or_specific.2
     (encodeStr "Order Ref: 1\nCurrency: USD\nPay Out Company: X")
     (by decide) (by decide)⟩

end TgOrderBot
